import Mathlib

/-!
# Verification of the answer-evaluation pipeline

A shallow embedding of the core of the `compyle` answer-evaluation system:
the scoring step (`services/nlp_service.py`), the OCR extraction stage and
its retry loop (`services/ocr_service.py`), the record model
(`models/answer_sheet.py`, `models/evaluation_scheme.py`,
`models/evaluation_result.py`), the background jobs
(`services/background_tasks.py`) and the evaluation trigger route
(`routes/evaluation.py`).

External effects are made explicit:

* Python's builtin `round` (banker's rounding, round-half-to-even) is
  modelled on `ℚ` by `rhe`; `round(x, 2)` is `round2`.
* the outputs of the external ML models (sentence-embedding cosine
  similarity, spaCy keyword extraction) and of the OpenAI calls are
  parameters of the functions that consume them;
* MongoDB collections are lists of records inside a `DB` state, and the
  `$set`-based update helpers are pure state transformers;
* `datetime.utcnow()` is a `now : ℕ` clock carried in the state;
* a Python exception is an `Except.error` carrying the message string.
-/

/-- Python's builtin `round` on a rational: round half to even. -/
def rhe (q : ℚ) : ℤ :=
  if q - ⌊q⌋ < 1/2 then ⌊q⌋
  else if 1/2 < q - ⌊q⌋ then ⌊q⌋ + 1
  else if 2 ∣ ⌊q⌋ then ⌊q⌋ else ⌊q⌋ + 1

/-- Python's `round(x, 2)` on a rational. -/
def round2 (q : ℚ) : ℚ := (rhe (q * 100) : ℚ) / 100

/-- Python's `round(x, 4)` on a rational. -/
def round4 (q : ℚ) : ℚ := (rhe (q * 10000) : ℚ) / 10000

theorem rhe_eq_floor_or_succ (q : ℚ) : rhe q = ⌊q⌋ ∨ rhe q = ⌊q⌋ + 1 := by
  unfold rhe
  split_ifs <;> simp

theorem rhe_nonneg {q : ℚ} (hq : 0 ≤ q) : 0 ≤ rhe q := by
  have h : (0 : ℤ) ≤ ⌊q⌋ := Int.le_floor.mpr (by exact_mod_cast hq)
  rcases rhe_eq_floor_or_succ q with h1 | h1 <;> omega

theorem rhe_le_of_le {q : ℚ} {m : ℤ} (hq : q ≤ m) : rhe q ≤ m := by
  have hf : ⌊q⌋ ≤ m := by
    have h1 : ⌊q⌋ ≤ ⌊(m : ℚ)⌋ := Int.floor_mono hq
    simpa using h1
  by_cases hfm : ⌊q⌋ = m
  · have hq' : q - (⌊q⌋ : ℚ) ≤ 0 := by
      have : q ≤ (⌊q⌋ : ℚ) := by rw [hfm]; exact_mod_cast hq
      linarith
    unfold rhe
    rw [if_pos (by linarith)]
    omega
  · have h1 : ⌊q⌋ + 1 ≤ m := by omega
    rcases rhe_eq_floor_or_succ q with h2 | h2 <;> omega

/-- The two configured scoring weights (`SEMANTIC_SIMILARITY_WEIGHT`,
`KEYWORD_MATCH_WEIGHT` in `config/config.py`). -/
structure ScoreConfig where
  wSim : ℚ
  wKw : ℚ
  deriving Repr, DecidableEq

/-- The default weights from `config/config.py`: 0.6 and 0.4. -/
def defaultConfig : ScoreConfig := { wSim := 3/5, wKw := 2/5 }

/-- The blended score of `nlp_service.evaluate_answer` before conversion
to marks. -/
def hybrid_score (cfg : ScoreConfig) (sem kw : ℚ) : ℚ :=
  sem * cfg.wSim + kw * cfg.wKw

/-- Embeds `nlp_service.calculate_keyword_match`: fraction of the model keywords
present among the student keywords, `0` when the model list is empty.
The two keyword lists stand for the spaCy outputs. -/
def calculate_keyword_match (model_keywords student_keywords : List String) : ℚ :=
  if model_keywords = [] then 0
  else (model_keywords.countP (fun k => student_keywords.contains k) : ℚ) /
    (model_keywords.length : ℚ)

/-- The scoring fields of the dictionary returned by
`nlp_service.evaluate_answer`. -/
structure EvalResultData where
  total_score : ℤ
  max_score : ℤ
  percentage : ℚ
  semantic_similarity_score : ℚ
  keyword_match_score : ℚ
  deriving Repr, DecidableEq

/-- Embeds `nlp_service.evaluate_answer`, with the outputs of the two external ML
measurements (cosine similarity of the embeddings, keyword-match ratio)
taken as inputs `semantic_similarity` and `keyword_match`:
`total_score = round(hybrid * total_marks)` (no clamping in the source),
`percentage = round(total_score / total_marks * 100, 2)` when
`total_marks > 0`, else `0`. -/
def evaluate_answer (cfg : ScoreConfig) (semantic_similarity keyword_match : ℚ)
    (total_marks : ℤ) : EvalResultData :=
  let hybrid := semantic_similarity * cfg.wSim + keyword_match * cfg.wKw
  let total_score := rhe (hybrid * total_marks)
  let percentage :=
    if 0 < total_marks then round2 ((total_score : ℚ) / (total_marks : ℚ) * 100) else 0
  { total_score := total_score
    max_score := total_marks
    percentage := percentage
    semantic_similarity_score := round4 semantic_similarity
    keyword_match_score := round4 keyword_match }

/-- Modelled from the spec's words (`raw_score = round(hybrid * total_marks)`,
clamped to `[0, total_marks]`): the clamped variant of the raw score, for
comparison with the unclamped score the source computes. -/
def clampedSpecScore (cfg : ScoreConfig) (sem kw : ℚ) (total_marks : ℤ) : ℤ :=
  max 0 (min (rhe ((sem * cfg.wSim + kw * cfg.wKw) * total_marks)) total_marks)

example : rhe (5/2) = 2 := by unfold rhe; norm_num
example : rhe (7/2) = 4 := by unfold rhe; norm_num
example : rhe (-5 : ℚ) = -5 := by unfold rhe; norm_num

/-- C3: the claim as stated is false: `evaluate_answer` performs no
clamping. With the default weights, a cosine similarity of `-5/6` (cosine
similarity ranges over `[-1, 1]`) and no keyword overlap give
`hybrid = -1/2`, so on `total_marks = 10` the code returns `-5` while the
claimed clamped value is `0`. -/
theorem scoring_clamp_counterexample :
    (evaluate_answer defaultConfig (-5/6) 0 10).total_score = -5 ∧
    clampedSpecScore defaultConfig (-5/6) 0 10 = 0 ∧
    (evaluate_answer defaultConfig (-5/6) 0 10).total_score ≠
      clampedSpecScore defaultConfig (-5/6) 0 10 := by
  have h1 : (evaluate_answer defaultConfig (-5/6) 0 10).total_score = -5 := by
    simp only [evaluate_answer, defaultConfig]
    norm_num [rhe]
  have h2 : clampedSpecScore defaultConfig (-5/6) 0 10 = 0 := by
    simp only [clampedSpecScore, defaultConfig]
    norm_num [rhe]
  refine ⟨h1, h2, ?_⟩
  rw [h1, h2]
  decide

/-- C3 (amended): `total_score` is `round(hybrid * total_marks)` with no
clamping; `percentage` is `0` when `total_marks ≤ 0` and
`round(total_score / total_marks * 100, 2)` otherwise; and whenever
`total_marks > 0` and `hybrid ∈ [0, 1]`, `0 ≤ total_score ≤ total_marks`
and the unclamped score agrees with the spec's clamped formula. -/
theorem evaluate_answer_score_props (cfg : ScoreConfig) (sem kw : ℚ) (m : ℤ) :
    (evaluate_answer cfg sem kw m).total_score = rhe (hybrid_score cfg sem kw * m) ∧
    (evaluate_answer cfg sem kw m).max_score = m ∧
    (m ≤ 0 → (evaluate_answer cfg sem kw m).percentage = 0) ∧
    (0 < m → (evaluate_answer cfg sem kw m).percentage =
      round2 (((evaluate_answer cfg sem kw m).total_score : ℚ) / (m : ℚ) * 100)) ∧
    (0 < m → 0 ≤ hybrid_score cfg sem kw → hybrid_score cfg sem kw ≤ 1 →
      0 ≤ (evaluate_answer cfg sem kw m).total_score ∧
      (evaluate_answer cfg sem kw m).total_score ≤ m ∧
      (evaluate_answer cfg sem kw m).total_score = clampedSpecScore cfg sem kw m) := by
  refine ⟨?_, ?_, ?_, ?_, ?_⟩
  · simp [evaluate_answer, hybrid_score]
  · simp [evaluate_answer]
  · intro hm
    simp only [evaluate_answer]
    rw [if_neg (not_lt.mpr hm)]
  · intro hm
    simp only [evaluate_answer]
    rw [if_pos hm]
  · intro hm h0 h1
    simp only [evaluate_answer, hybrid_score, clampedSpecScore] at h0 h1 ⊢
    have hm' : (0 : ℚ) ≤ (m : ℚ) := by exact_mod_cast le_of_lt hm
    have hlow : (0 : ℚ) ≤ (sem * cfg.wSim + kw * cfg.wKw) * (m : ℚ) :=
      mul_nonneg h0 hm'
    have hhigh : (sem * cfg.wSim + kw * cfg.wKw) * (m : ℚ) ≤ (m : ℚ) := by
      have := mul_le_mul_of_nonneg_right h1 hm'
      linarith
    have hl := rhe_nonneg hlow
    have hh := rhe_le_of_le hhigh
    exact ⟨hl, hh, by rw [min_eq_left hh, max_eq_right hl]⟩

/-- C3 witness: the spec's worked scenario (`total_marks = 100`,
similarity `0.8`, keyword score `0.5`, weights `0.6`/`0.4`), with the
hypotheses of `evaluate_answer_score_props` discharged concretely. -/
theorem evaluate_answer_score_props_witness :
    0 ≤ (evaluate_answer defaultConfig (4/5) (1/2) 100).total_score ∧
    (evaluate_answer defaultConfig (4/5) (1/2) 100).total_score ≤ 100 ∧
    (evaluate_answer defaultConfig (4/5) (1/2) 100).total_score =
      clampedSpecScore defaultConfig (4/5) (1/2) 100 :=
  (evaluate_answer_score_props defaultConfig (4/5) (1/2) 100).2.2.2.2
    (by norm_num) (by norm_num [hybrid_score, defaultConfig])
    (by norm_num [hybrid_score, defaultConfig])

/-- Character-list test: `needle` occurs at the start of `hay`. -/
def charsStartsWith : List Char → List Char → Bool
  | _, [] => true
  | [], _ :: _ => false
  | c :: cs, d :: ds => c == d && charsStartsWith cs ds

/-- Character-list test: `needle` occurs somewhere inside `hay`
(Python's `needle in hay`). -/
def charsHasSub : List Char → List Char → Bool
  | [], needle => needle.isEmpty
  | c :: rest, needle => charsStartsWith (c :: rest) needle || charsHasSub rest needle

/-- The characters of `s.lower()`. -/
def lowerChars (s : String) : List Char := s.data.map Char.toLower

/-- The rate-limit test of `ocr_service.extract_text_from_image`:
`'rate_limit' in error_message.lower() or 'quota' in error_message.lower()`. -/
def isRateLimit (msg : String) : Bool :=
  charsHasSub (lowerChars msg) "rate_limit".data ||
    charsHasSub (lowerChars msg) "quota".data

/-- The terminal message of the rate-limit branch of
`extract_text_from_image`. -/
def rateLimitTerminalMsg : String := "OpenAI API rate limit exceeded"

/-- The terminal message of the generic-failure branch of
`extract_text_from_image`. -/
def retriesExhaustedMsg (maxRetries : Nat) (lastMsg : String) : String :=
  "OpenAI API call failed after " ++ toString maxRetries ++ " retries: " ++ lastMsg

/-- The message raised when the retry loop is never entered
(`max_retries = 0`). -/
def pageExhaustedMsg (pageNum maxRetries : Nat) : String :=
  "Failed to extract text from page " ++ toString pageNum ++ " after " ++
    toString maxRetries ++ " retries"

/-- Observable outcome of one run of the retry loop: final result, the
back-off sleeps performed (in order), and how many times the external
operation was invoked. -/
structure RetryRun where
  result : Except String String
  waits : List Nat
  calls : Nat
  deriving Repr

/-- The `while retries < max_retries` loop of
`ocr_service.extract_text_from_image`. `call n` is the outcome of the
n-th invocation (1-based) of the OpenAI vision request; `retries` is the
loop counter and `fuel = maxRetries - retries` counts the remaining
iterations. On a failure the counter is incremented and the loop sleeps
`delay * 2 ^ (retries - 1)` (for the incremented counter) before the next
attempt; with the counter exhausted it raises the rate-limit terminal
message or the generic terminal message. -/
def retryLoop (maxRetries delay pageNum : Nat) (call : Nat → Except String String) :
    Nat → Nat → RetryRun
  | _, 0 => ⟨.error (pageExhaustedMsg pageNum maxRetries), [], 0⟩
  | retries, fuel + 1 =>
    match call (retries + 1) with
    | .ok t => ⟨.ok t, [], 1⟩
    | .error msg =>
      if isRateLimit msg then
        if retries + 1 < maxRetries then
          let rest := retryLoop maxRetries delay pageNum call (retries + 1) fuel
          ⟨rest.result, delay * 2 ^ retries :: rest.waits, rest.calls + 1⟩
        else ⟨.error rateLimitTerminalMsg, [], 1⟩
      else
        if retries + 1 < maxRetries then
          let rest := retryLoop maxRetries delay pageNum call (retries + 1) fuel
          ⟨rest.result, delay * 2 ^ retries :: rest.waits, rest.calls + 1⟩
        else ⟨.error (retriesExhaustedMsg maxRetries msg), [], 1⟩

/-- Embeds `ocr_service.extract_text_from_image`: the retry loop started with
`retries = 0`. -/
def extract_text_from_image (maxRetries delay pageNum : Nat)
    (call : Nat → Except String String) : RetryRun :=
  retryLoop maxRetries delay pageNum call 0 maxRetries

theorem retryLoop_calls_le (maxRetries delay pageNum : Nat)
    (call : Nat → Except String String) :
    ∀ fuel retries, (retryLoop maxRetries delay pageNum call retries fuel).calls ≤ fuel := by
  intro fuel
  induction fuel with
  | zero => intro retries; simp [retryLoop]
  | succ n ih =>
    intro retries
    simp only [retryLoop]
    cases call (retries + 1) with
    | ok t => simp
    | error msg =>
      split_ifs with h1
      · simpa using Nat.succ_le_succ (ih (retries + 1))
      · split
        · simp
        · split_ifs <;> simp

theorem waits_shift (delay retries m : Nat) :
    (List.range (m + 1)).map (fun i => delay * 2 ^ (retries + i)) =
      delay * 2 ^ retries :: (List.range m).map (fun i => delay * 2 ^ (retries + 1 + i)) := by
  rw [List.range_succ_eq_map, List.map_cons, List.map_map]
  refine congrArg₂ List.cons (by simp) ?_
  apply List.map_congr_left
  intro a _
  simp only [Function.comp_apply, Nat.succ_eq_add_one]
  have h2 : retries + (a + 1) = retries + 1 + a := by omega
  rw [h2]

theorem retryLoop_all_fail (maxRetries delay pageNum : Nat)
    (call : Nat → Except String String) (msg : Nat → String)
    (hfail : ∀ n, 1 ≤ n → n ≤ maxRetries → call n = .error (msg n)) :
    ∀ fuel retries, fuel + retries = maxRetries → retries < maxRetries →
      retryLoop maxRetries delay pageNum call retries fuel =
        ⟨.error (if isRateLimit (msg maxRetries) then rateLimitTerminalMsg
            else retriesExhaustedMsg maxRetries (msg maxRetries)),
          (List.range (fuel - 1)).map (fun i => delay * 2 ^ (retries + i)),
          fuel⟩ := by
  intro fuel
  induction fuel with
  | zero => intro retries h1 h2; omega
  | succ n ih =>
    intro retries h1 h2
    have hcall : call (retries + 1) = .error (msg (retries + 1)) :=
      hfail (retries + 1) (by omega) (by omega)
    simp only [retryLoop, hcall]
    by_cases hlt : retries + 1 < maxRetries
    · have hrec := ih (retries + 1) (by omega) hlt
      obtain ⟨m, rfl⟩ : ∃ m, n = m + 1 := ⟨n - 1, by omega⟩
      rw [hrec]
      by_cases hrl : isRateLimit (msg (retries + 1))
      · simp only [hrl, if_true, if_pos hlt, Nat.add_sub_cancel, waits_shift]
      · simp only [hrl, Bool.false_eq_true, if_false, if_pos hlt, Nat.add_sub_cancel,
          waits_shift]
    · have hmr : retries + 1 = maxRetries := by omega
      have hn : n = 0 := by omega
      subst hn
      rw [hmr] at hcall ⊢
      by_cases hrl : isRateLimit (msg maxRetries)
      · simp [hrl]
      · simp [hrl]

/-- A quota failure message of the kind the OpenAI client raises. -/
def quotaFailureMsg : String := "You exceeded your current quota."

/-- C4: the claim as stated is false. With `OPENAI_MAX_RETRIES = 3` and
`OPENAI_RETRY_DELAY_SECONDS = 2` (the config defaults) and every attempt
failing with a quota message, the terminal error is the fixed string
`"OpenAI API rate limit exceeded"`, which contains neither the last
failure's message nor the attempt count `3`. -/
theorem retry_rate_limit_counterexample :
    (extract_text_from_image 3 2 1 (fun _ => .error quotaFailureMsg)).result =
      .error rateLimitTerminalMsg ∧
    (extract_text_from_image 3 2 1 (fun _ => .error quotaFailureMsg)).calls = 3 ∧
    charsHasSub rateLimitTerminalMsg.data quotaFailureMsg.data = false ∧
    charsHasSub rateLimitTerminalMsg.data (toString 3).data = false ∧
    rateLimitTerminalMsg ≠ retriesExhaustedMsg 3 quotaFailureMsg := by
  refine ⟨by rfl, by decide, by decide, by decide, by decide⟩

/-- C4 (amended): the wrapped operation is run at most `max_retries`
times for every operation; when every attempt fails, exactly
`max_retries` calls are made, the wait before the retry that follows
failed attempt `n` is `delay * 2 ^ (n - 1)`, and the terminal error is
`retriesExhaustedMsg max_retries last_message` (carrying both the attempt
count and the last failure's message) for a non-rate-limit final failure,
but the fixed `rateLimitTerminalMsg` for a rate-limit/quota final
failure. -/
theorem retry_policy_props (maxRetries delay pageNum : Nat)
    (call : Nat → Except String String) (msg : Nat → String)
    (hmax : 0 < maxRetries)
    (hfail : ∀ n, 1 ≤ n → n ≤ maxRetries → call n = .error (msg n)) :
    (∀ anyCall : Nat → Except String String,
      (extract_text_from_image maxRetries delay pageNum anyCall).calls ≤ maxRetries) ∧
    (extract_text_from_image maxRetries delay pageNum call).calls = maxRetries ∧
    (extract_text_from_image maxRetries delay pageNum call).waits =
      (List.range (maxRetries - 1)).map (fun i => delay * 2 ^ i) ∧
    (extract_text_from_image maxRetries delay pageNum call).result =
      .error (if isRateLimit (msg maxRetries) then rateLimitTerminalMsg
        else retriesExhaustedMsg maxRetries (msg maxRetries)) := by
  have h := retryLoop_all_fail maxRetries delay pageNum call msg hfail maxRetries 0
    (by omega) hmax
  refine ⟨fun anyCall => retryLoop_calls_le maxRetries delay pageNum anyCall maxRetries 0,
    ?_, ?_, ?_⟩
  · rw [extract_text_from_image, h]
  · rw [extract_text_from_image, h]
    simp
  · rw [extract_text_from_image, h]

/-- C4 witness: `retry_policy_props` at `max_retries = 3`, `delay = 2`,
attempt `n` failing with message `"err <n>"` (not a rate-limit
signature): three calls, back-off waits `[2, 4]`, terminal error carrying
the count and the last message. -/
theorem retry_policy_props_witness :
    (extract_text_from_image 3 2 1 (fun n => .error ("err " ++ toString n))).calls = 3 ∧
    (extract_text_from_image 3 2 1 (fun n => .error ("err " ++ toString n))).waits = [2, 4] ∧
    (extract_text_from_image 3 2 1 (fun n => .error ("err " ++ toString n))).result =
      .error (retriesExhaustedMsg 3 ("err " ++ toString 3)) := by
  have h := retry_policy_props 3 2 1 (fun n => .error ("err " ++ toString n))
    (fun n => "err " ++ toString n) (by decide) (fun n h1 h2 => rfl)
  refine ⟨h.2.1, ?_, ?_⟩
  · rw [h.2.2.1]
    decide
  · rw [h.2.2.2]
    have hrl : isRateLimit ("err " ++ toString 3) = false := by decide
    rw [hrl]
    simp

/-- The blank-line separator with which page texts are joined. -/
def blankSep : String := "\n".push '\n'

/-- The per-page sentinel placeholder appended when a page's extraction
fails: `[Error extracting text from page <n>]`. -/
def sentinel (pageNum : Nat) : String :=
  "[Error extracting text from page " ++ toString pageNum ++ "]"

/-- Whether an `Except` value is a success. -/
def okB {α : Type} : Except String α → Bool
  | .ok _ => true
  | .error _ => false

/-- One iteration of the page loop of `ocr_service.extract_text_from_pdf`:
the page's extracted text on success, the sentinel on any per-page
failure. -/
def page_text (pageNum : Nat) : Except String String → String
  | .ok t => t
  | .error _ => sentinel pageNum

/-- The `all_text` list accumulated by the page loop, pages numbered from
`n` (the source starts at 1). `ps` gives each page's outcome: the
subexpression of the loop body up to and including the retried OpenAI
call, as one `Except`. -/
def pageTexts : Nat → List (Except String String) → List String
  | _, [] => []
  | n, o :: rest => page_text n o :: pageTexts (n + 1) rest

/-- What `extract_text_from_pdf` observes of its environment: the GridFS
download can fail (`fetchError`, re-raised as a generic OCR failure), the
`convert_from_bytes` rasterization can fail (`convertError`), or it
yields the list of per-page outcomes. -/
inductive RasterOutcome where
  | fetchError (msg : String)
  | convertError (msg : String)
  | pages (ps : List (Except String String))

/-- Embeds `ocr_service.extract_text_from_pdf`: raises when the blob fetch
fails, the rasterization fails, or there are zero pages; otherwise joins
the page texts (sentinel for failed pages) with a blank-line separator. -/
def extract_text_from_pdf : RasterOutcome → Except String String
  | .fetchError msg => .error ("OCR process failed: " ++ msg)
  | .convertError msg => .error ("Failed to convert PDF to images: " ++ msg)
  | .pages ps =>
    if ps.isEmpty then .error "PDF contains no pages"
    else .ok (String.intercalate blankSep (pageTexts 1 ps))

/-- Does the outcome lie in the claim's first allowed failure case
(rasterization failure)? -/
def isConvertError : RasterOutcome → Bool
  | .convertError _ => true
  | _ => false

/-- Does the outcome lie in the claim's second allowed failure case (a
rasterized document with zero pages)? -/
def isZeroPages : RasterOutcome → Bool
  | .pages ps => ps.isEmpty
  | _ => false

theorem pageTexts_length (n : Nat) (ps : List (Except String String)) :
    (pageTexts n ps).length = ps.length := by
  induction ps generalizing n with
  | nil => simp [pageTexts]
  | cons o rest ih => simp [pageTexts, ih]

theorem pageTexts_getD (n : Nat) (ps : List (Except String String)) :
    ∀ i, i < ps.length →
      (pageTexts n ps).getD i "" = page_text (n + i) (ps.getD i (.error "")) := by
  induction ps generalizing n with
  | nil => intro i h; simp at h
  | cons o rest ih =>
    intro i h
    cases i with
    | zero => simp [pageTexts]
    | succ j =>
      simp only [pageTexts, List.getD_cons_succ]
      rw [ih (n + 1) j (by simpa using h)]
      congr 1
      omega

/-- C6: in a document of `N ≥ 1` pages where page `k`'s extraction
exhausts its retries and every other page succeeds, extraction does not
raise: it returns the `N` page outputs joined in page order with the
blank-line separator, segment `k` being the sentinel placeholder naming
page `k` and every other segment the page's real extracted text. -/
theorem extract_partial_page_failure (ps : List (Except String String)) (k : Nat)
    (errMsg : String) (hk1 : 1 ≤ k) (hk2 : k ≤ ps.length)
    (hfail : ps.getD (k - 1) (.error "") = .error errMsg)
    (hok : ∀ i, i < ps.length → i ≠ k - 1 → okB (ps.getD i (.error "")) = true) :
    extract_text_from_pdf (.pages ps) =
      .ok (String.intercalate blankSep (pageTexts 1 ps)) ∧
    (pageTexts 1 ps).length = ps.length ∧
    (pageTexts 1 ps).getD (k - 1) "" = sentinel k ∧
    (∀ i, i < ps.length → i ≠ k - 1 →
      ps.getD i (.error "") = .ok ((pageTexts 1 ps).getD i "")) := by
  have hne : ps.isEmpty = false := by
    cases ps with
    | nil => simp at hk2; omega
    | cons a l => rfl
  refine ⟨?_, pageTexts_length 1 ps, ?_, ?_⟩
  · simp [extract_text_from_pdf, hne]
  · rw [pageTexts_getD 1 ps (k - 1) (by omega), hfail]
    have h1 : 1 + (k - 1) = k := by omega
    rw [h1]
    rfl
  · intro i hi hneq
    have h := hok i hi hneq
    cases hcase : ps.getD i (.error "") with
    | ok t =>
      rw [pageTexts_getD 1 ps i hi, hcase]
      rfl
    | error e =>
      rw [hcase] at h
      simp [okB] at h

/-- C6 witness: a three-page document whose second page fails: the joined
text has the sentinel for page 2 in the middle and real text around it. -/
theorem extract_partial_page_failure_witness :
    extract_text_from_pdf (.pages [.ok "alpha", .error "boom", .ok "gamma"]) =
      .ok (String.intercalate blankSep
        (pageTexts 1 [.ok "alpha", .error "boom", .ok "gamma"])) ∧
    (pageTexts 1 [.ok "alpha", .error "boom", .ok "gamma"]).getD 1 "" = sentinel 2 ∧
    (pageTexts 1 [.ok "alpha", .error "boom", .ok "gamma"]).getD 0 "" = "alpha" := by
  have h := extract_partial_page_failure [.ok "alpha", .error "boom", .ok "gamma"] 2 "boom"
    (by decide) (by decide) (by rfl) (by decide)
  exact ⟨h.1, h.2.2.1, by rfl⟩

/-- C8: the claim as stated is false: there is a third wholesale-raise
case. When the blob itself cannot be fetched (GridFS raises, e.g. `"File
not found"`), `extract_text_from_pdf` raises even though the input is
neither a rasterization failure nor a zero-page document. -/
theorem extract_error_cases_counterexample :
    okB (extract_text_from_pdf (.fetchError "File not found")) = false ∧
    isConvertError (.fetchError "File not found") = false ∧
    isZeroPages (.fetchError "File not found") = false := by
  exact ⟨rfl, rfl, rfl⟩

/-- C8 (amended): `extract_text_from_pdf` returns a string exactly when
the blob was fetched and rasterized and the document has at least one
page; it raises in precisely three cases: blob fetch failure,
rasterization failure, or zero pages. -/
theorem extract_error_cases (o : RasterOutcome) :
    okB (extract_text_from_pdf o) = true ↔
      ∃ ps, o = RasterOutcome.pages ps ∧ ps ≠ [] := by
  cases o with
  | fetchError m => simp [extract_text_from_pdf, okB]
  | convertError m => simp [extract_text_from_pdf, okB]
  | pages ps =>
    by_cases h : ps.isEmpty
    · have := List.isEmpty_iff.mp h
      simp [extract_text_from_pdf, h, okB, this]
    · have := (Bool.not_eq_true ps.isEmpty).mp h
      simp only [extract_text_from_pdf, this, Bool.false_eq_true, if_false]
      simp [okB]
      intro hcon
      rw [hcon] at this
      simp at this

/-- An `answer_sheets` document (`models/answer_sheet.py`). `id` stands
for the Mongo `_id`; datetimes are ticks of the `now` clock. -/
structure SheetRec where
  id : Nat
  evaluation_scheme_id : Nat
  teacher_id : Nat
  student_name : Option String
  student_roll_number : Option String
  answer_file_id : Nat
  extracted_text : Option String
  status : String
  uploaded_at : Nat
  processed_at : Option Nat
  error_message : Option String
  deriving Repr, DecidableEq

/-- An `evaluation_schemes` document (`models/evaluation_scheme.py`).
`error_message` is absent at creation and added by a later `$set`, hence
an `Option`. -/
structure SchemeRec where
  id : Nat
  teacher_id : Nat
  title : String
  subject : Option String
  total_marks : ℤ
  model_answer_file_id : Nat
  extracted_text : Option String
  keywords : List String
  status : String
  error_message : Option String
  created_at : Nat
  updated_at : Nat
  deriving Repr, DecidableEq

/-- An `evaluation_results` document (`models/evaluation_result.py`). -/
structure ResultRec where
  id : Nat
  answer_sheet_id : Nat
  evaluation_scheme_id : Nat
  total_score : ℤ
  max_score : ℤ
  percentage : ℚ
  semantic_similarity_score : ℚ
  keyword_match_score : ℚ
  detailed_feedback : String
  evaluated_at : Nat
  deriving Repr, DecidableEq

/-- The MongoDB state seen by the pipeline: the three collections, the
`datetime.utcnow()` clock, and the next generated `_id`. -/
structure DB where
  sheets : List SheetRec
  schemes : List SchemeRec
  results : List ResultRec
  now : Nat
  nextId : Nat
  deriving Repr

/-- Embeds `answer_sheet.find_by_id`. -/
def find_by_id (db : DB) (sheet_id : Nat) : Option SheetRec :=
  db.sheets.find? (fun s => s.id == sheet_id)

/-- Embeds `evaluation_scheme.find_by_id`. -/
def scheme_find_by_id (db : DB) (scheme_id : Nat) : Option SchemeRec :=
  db.schemes.find? (fun s => s.id == scheme_id)

/-- Embeds `evaluation_result.find_by_answer_sheet`. -/
def find_by_answer_sheet (db : DB) (sheet_id : Nat) : Option ResultRec :=
  db.results.find? (fun r => r.answer_sheet_id == sheet_id)

/-- The `$set` document of `answer_sheet.update_status`: always the
`status` field, plus `processed_at` exactly when the new status is
`completed`. -/
def update_status_doc (now : Nat) (status : String) (s : SheetRec) : SheetRec :=
  if status = "completed" then { s with status := status, processed_at := some now }
  else { s with status := status }

/-- Embeds `answer_sheet.update_status`: an update of the matching record. -/
def update_status (db : DB) (sheet_id : Nat) (status : String) : DB :=
  { db with sheets := db.sheets.map (fun s =>
      if s.id = sheet_id then update_status_doc db.now status s else s) }

/-- Embeds `answer_sheet.update_extracted_text`. -/
def update_extracted_text (db : DB) (sheet_id : Nat) (text : String) : DB :=
  { db with sheets := db.sheets.map (fun s =>
      if s.id = sheet_id then { s with extracted_text := some text } else s) }

/-- Embeds `answer_sheet.set_error`: sets `status = failed`, the error message,
and `processed_at = utcnow()` in one `$set`. -/
def set_error (db : DB) (sheet_id : Nat) (msg : String) : DB :=
  { db with sheets := db.sheets.map (fun s =>
      if s.id = sheet_id then
        { s with
          status := "failed"
          error_message := some msg
          processed_at := some db.now }
      else s) }

/-- Embeds `evaluation_result.create_result`: insertion of the scores
dictionary produced by `evaluate_answer` plus the feedback text. The app
creates a unique index on `evaluation_results.answer_sheet_id`
(`app.py`), so inserting a second Result for the same sheet raises a
`DuplicateKeyError` instead of succeeding. -/
def create_result (db : DB) (answer_sheet_id scheme_id : Nat)
    (scores : EvalResultData) (feedback : String) : Except String DB :=
  if db.results.any (fun r => r.answer_sheet_id == answer_sheet_id) then
    .error "E11000 duplicate key error: evaluation_results index answer_sheet_id"
  else
    .ok { db with
      results := db.results ++
        [{ id := db.nextId
           answer_sheet_id := answer_sheet_id
           evaluation_scheme_id := scheme_id
           total_score := scores.total_score
           max_score := scores.max_score
           percentage := scores.percentage
           semantic_similarity_score := scores.semantic_similarity_score
           keyword_match_score := scores.keyword_match_score
           detailed_feedback := feedback
           evaluated_at := db.now }]
      nextId := db.nextId + 1 }

/-- The document inserted by `evaluation_scheme.create_scheme`: created
in state `processing` with `extracted_text = None` and `keywords = []`. -/
def create_scheme_doc (db : DB) (teacher_id : Nat) (title : String)
    (subject : Option String) (total_marks : ℤ) (file_id : Nat) : SchemeRec :=
  { id := db.nextId
    teacher_id := teacher_id
    title := title
    subject := subject
    total_marks := total_marks
    model_answer_file_id := file_id
    extracted_text := none
    keywords := []
    status := "processing"
    error_message := none
    created_at := db.now
    updated_at := db.now }

/-- Embeds `evaluation_scheme.update_scheme` with the success update of
`process_model_answer`: extracted text, keywords and `status = ready`
(plus the `updated_at` stamp `update_scheme` always adds). -/
def update_scheme_success (db : DB) (scheme_id : Nat) (text : String)
    (kws : List String) : DB :=
  { db with schemes := db.schemes.map (fun s =>
      if s.id = scheme_id then
        { s with
          extracted_text := some text
          keywords := kws
          status := "ready"
          updated_at := db.now }
      else s) }

/-- Embeds `evaluation_scheme.update_scheme` with the failure update of
`process_model_answer`: `status = failed` and the error message. -/
def update_scheme_failure (db : DB) (scheme_id : Nat) (msg : String) : DB :=
  { db with schemes := db.schemes.map (fun s =>
      if s.id = scheme_id then
        { s with
          status := "failed"
          error_message := some msg
          updated_at := db.now }
      else s) }

/-- A sample answer sheet used for concrete witnesses. -/
def sampleSheet : SheetRec :=
  { id := 1
    evaluation_scheme_id := 7
    teacher_id := 3
    student_name := some "Asha"
    student_roll_number := none
    answer_file_id := 11
    extracted_text := none
    status := "pending"
    uploaded_at := 50
    processed_at := none
    error_message := none }

/-- A sample database holding only `sampleSheet`. -/
def sampleDB : DB :=
  { sheets := [sampleSheet], schemes := [], results := [], now := 100, nextId := 1000 }

/-- C9: `update_status` rewrites only the matched sheet's `status` field,
additionally stamping `processed_at` exactly when the new status is
`completed`; every other field of the sheet — and the other two
collections — is untouched. -/
theorem update_status_frame (db : DB) (sheet_id : Nat) (status : String) :
    (status ≠ "completed" →
      (update_status db sheet_id status).sheets =
        db.sheets.map (fun s => if s.id = sheet_id then { s with status := status } else s)) ∧
    (status = "completed" →
      (update_status db sheet_id status).sheets =
        db.sheets.map (fun s => if s.id = sheet_id then
          { s with status := status, processed_at := some db.now } else s)) ∧
    (∀ s ∈ (update_status db sheet_id status).sheets, ∃ s0 ∈ db.sheets,
      s.id = s0.id ∧ s.extracted_text = s0.extracted_text ∧
      s.error_message = s0.error_message ∧ s.uploaded_at = s0.uploaded_at ∧
      s.student_name = s0.student_name ∧ s.student_roll_number = s0.student_roll_number ∧
      s.answer_file_id = s0.answer_file_id ∧
      s.evaluation_scheme_id = s0.evaluation_scheme_id ∧ s.teacher_id = s0.teacher_id ∧
      (status ≠ "completed" → s.processed_at = s0.processed_at)) ∧
    (update_status db sheet_id status).schemes = db.schemes ∧
    (update_status db sheet_id status).results = db.results := by
  refine ⟨?_, ?_, ?_, rfl, rfl⟩
  · intro hst
    simp only [update_status, update_status_doc, if_neg hst]
  · intro hst
    subst hst
    simp [update_status, update_status_doc]
  · intro s hs
    simp only [update_status, List.mem_map] at hs
    obtain ⟨s0, hs0, rfl⟩ := hs
    refine ⟨s0, hs0, ?_⟩
    by_cases h : s0.id = sheet_id
    · simp only [if_pos h, update_status_doc]
      split_ifs with hc
      · simp [hc]
      · simp
    · simp [if_neg h]

/-- C9 witness: `update_status` to `processing` on the sample database
rewrites only the status; to `completed` it also stamps `processed_at`. -/
theorem update_status_frame_witness :
    (update_status sampleDB 1 "processing").sheets =
      [{ sampleSheet with status := "processing" }] ∧
    (update_status sampleDB 1 "completed").sheets =
      [{ sampleSheet with status := "completed", processed_at := some 100 }] := by
  constructor
  · have h := (update_status_frame sampleDB 1 "processing").1 (by decide)
    rw [h]
    rfl
  · have h := (update_status_frame sampleDB 1 "completed").2.1 rfl
    rw [h]
    rfl

/-- The outcomes of the two externally-effectful steps of one run of
`process_model_answer`: the OCR extraction of the model-answer PDF and
the spaCy keyword extraction. -/
structure PrepStepOutcomes where
  extract : Except String String
  keywords : Except String (List String)

/-- One run of the Celery task `process_model_answer`
(`services/background_tasks.py`): fetch the scheme, extract text,
extract keywords, and either persist `{extracted_text, keywords,
status = ready}` or persist `{status = failed, error_message}` and
re-raise. (A Celery retry re-runs exactly this transition.) -/
def process_model_answer (db : DB) (scheme_id : Nat) (o : PrepStepOutcomes) :
    DB × Except String String :=
  match scheme_find_by_id db scheme_id with
  | none =>
    let m := "Failed to process model answer: Evaluation scheme " ++
      toString scheme_id ++ " not found"
    (update_scheme_failure db scheme_id m, .error m)
  | some _ =>
    match o.extract with
    | .error e =>
      let m := "Failed to process model answer: " ++ e
      (update_scheme_failure db scheme_id m, .error m)
    | .ok text =>
      match o.keywords with
      | .error e =>
        let m := "Failed to process model answer: " ++ e
        (update_scheme_failure db scheme_id m, .error m)
      | .ok kws =>
        (update_scheme_success db scheme_id text kws,
          .ok ("Model answer processed successfully for scheme " ++ toString scheme_id))

/-- The readiness invariant claimed for `GradingScheme` records:
`status = ready` exactly when the model text is non-null and the keyword
list is populated (non-empty). -/
def schemeInv (s : SchemeRec) : Prop :=
  s.status = "ready" ↔ (s.extracted_text ≠ none ∧ s.keywords ≠ [])

/-- The outcomes of the externally-effectful steps of one run of
`process_evaluation`: OCR extraction, the extracted-text persist, the
scoring call (scores plus feedback text), and the result persist. A step
whose outcome is an `error` raised at that point in the source. -/
structure EvalStepOutcomes where
  extract : Except String String
  persistText : Except String Unit
  score : Except String (EvalResultData × String)
  persistResult : Except String Unit

/-- One run of the Celery task `process_evaluation`
(`services/background_tasks.py`): fetch sheet and scheme, guard scheme
readiness, set `processing`, extract, persist text, score, persist the
result (the insert respecting the unique index on
`evaluation_results.answer_sheet_id`), set `completed`; any exception
runs `set_error` and re-raises. (A Celery retry re-runs exactly this
transition.) -/
def process_evaluation (db : DB) (sheet_id : Nat) (o : EvalStepOutcomes) :
    DB × Except String String :=
  match find_by_id db sheet_id with
  | none =>
    let m := "Evaluation failed: Answer sheet " ++ toString sheet_id ++ " not found"
    (set_error db sheet_id m, .error m)
  | some sheet =>
    match scheme_find_by_id db sheet.evaluation_scheme_id with
    | none =>
      let m := "Evaluation failed: Evaluation scheme not found"
      (set_error db sheet_id m, .error m)
    | some scheme =>
      if scheme.status ≠ "ready" then
        let m := "Evaluation failed: Model answer is not ready. Please wait for processing to complete."
        (set_error db sheet_id m, .error m)
      else
        let db1 := update_status db sheet_id "processing"
        match o.extract with
        | .error e =>
          let m := "Evaluation failed: " ++ e
          (set_error db1 sheet_id m, .error m)
        | .ok text =>
          match o.persistText with
          | .error e =>
            let m := "Evaluation failed: " ++ e
            (set_error db1 sheet_id m, .error m)
          | .ok _ =>
            let db2 := update_extracted_text db1 sheet_id text
            match o.score with
            | .error e =>
              let m := "Evaluation failed: " ++ e
              (set_error db2 sheet_id m, .error m)
            | .ok (scores, feedback) =>
              match o.persistResult with
              | .error e =>
                let m := "Evaluation failed: " ++ e
                (set_error db2 sheet_id m, .error m)
              | .ok _ =>
                match create_result db2 sheet_id scheme.id scores feedback with
                | .error e =>
                  let m := "Evaluation failed: " ++ e
                  (set_error db2 sheet_id m, .error m)
                | .ok db3 =>
                  let db4 := update_status db3 sheet_id "completed"
                  (db4, .ok ("Answer sheet " ++ toString sheet_id ++ " evaluated successfully"))

/-- The responses of `routes/evaluation.py::trigger_evaluation`; only
`accepted` (HTTP 202) dispatches `process_evaluation.delay`. The others
are error responses: 404, 403, 400 (`Answer sheet already evaluated`),
404, 400 respectively. -/
inductive TriggerResponse where
  | notFound
  | accessDenied
  | alreadyEvaluated
  | schemeNotFound
  | schemeNotReady
  | accepted
  deriving Repr, DecidableEq

/-- Embeds `routes/evaluation.py::trigger_evaluation`: the validation chain run
before the evaluation task is dispatched. -/
def trigger_evaluation (db : DB) (current_user_id sheet_id : Nat) : TriggerResponse :=
  match find_by_id db sheet_id with
  | none => .notFound
  | some sheet =>
    if sheet.teacher_id ≠ current_user_id then .accessDenied
    else
      match find_by_answer_sheet db sheet_id with
      | some _ => .alreadyEvaluated
      | none =>
        match scheme_find_by_id db sheet.evaluation_scheme_id with
        | none => .schemeNotFound
        | some scheme =>
          if scheme.status ≠ "ready" then .schemeNotReady else .accepted

theorem set_error_mem (db : DB) (sheet_id : Nat) (msg : String) :
    ∀ s ∈ (set_error db sheet_id msg).sheets, s.id = sheet_id →
      s.status = "failed" ∧ s.error_message = some msg ∧
      s.processed_at = some db.now := by
  intro s hs hid
  simp only [set_error, List.mem_map] at hs
  obtain ⟨s0, hs0, rfl⟩ := hs
  by_cases h : s0.id = sheet_id
  · simp [if_pos h]
  · rw [if_neg h] at hid
    exact absurd hid h

/-- C7: if the sheet and a ready scheme are found and any later step of
`process_evaluation` fails (extraction, persisting the text, scoring, or
persisting the Result), the sheet ends with `status = failed`, a non-null
`error_message` and a non-null `processed_at`, and the job re-raises — it
never stays in `processing`. -/
theorem evaluation_failure_terminal (db : DB) (sheet_id : Nat) (o : EvalStepOutcomes)
    (sheet : SheetRec) (hsheet : find_by_id db sheet_id = some sheet)
    (scheme : SchemeRec)
    (hscheme : scheme_find_by_id db sheet.evaluation_scheme_id = some scheme)
    (hready : scheme.status = "ready")
    (hfailstep : okB o.extract = false ∨ okB o.persistText = false ∨
      okB o.score = false ∨ okB o.persistResult = false) :
    (∀ s ∈ (process_evaluation db sheet_id o).1.sheets, s.id = sheet_id →
      s.status = "failed" ∧ s.error_message ≠ none ∧ s.processed_at ≠ none) ∧
    okB (process_evaluation db sheet_id o).2 = false := by
  have hnready : ¬(scheme.status ≠ "ready") := by simp [hready]
  simp only [process_evaluation, hsheet, hscheme, if_neg hnready]
  cases hext : o.extract with
  | error e =>
    refine ⟨?_, rfl⟩
    intro s hs hid
    have h := set_error_mem _ sheet_id _ s hs hid
    exact ⟨h.1, by simp [h.2.1], by simp [h.2.2]⟩
  | ok text =>
    cases hpt : o.persistText with
    | error e =>
      refine ⟨?_, rfl⟩
      intro s hs hid
      have h := set_error_mem _ sheet_id _ s hs hid
      exact ⟨h.1, by simp [h.2.1], by simp [h.2.2]⟩
    | ok u =>
      cases hsc : o.score with
      | error e =>
        refine ⟨?_, rfl⟩
        intro s hs hid
        have h := set_error_mem _ sheet_id _ s hs hid
        exact ⟨h.1, by simp [h.2.1], by simp [h.2.2]⟩
      | ok pair =>
        obtain ⟨scores, feedback⟩ := pair
        cases hpr : o.persistResult with
        | error e =>
          refine ⟨?_, rfl⟩
          intro s hs hid
          have h := set_error_mem _ sheet_id _ s hs hid
          exact ⟨h.1, by simp [h.2.1], by simp [h.2.2]⟩
        | ok u2 =>
          exfalso
          rcases hfailstep with h | h | h | h
          · rw [hext] at h; simp [okB] at h
          · rw [hpt] at h; simp [okB] at h
          · rw [hsc] at h; simp [okB] at h
          · rw [hpr] at h; simp [okB] at h

/-- A ready grading scheme used for concrete witnesses. -/
def readyScheme : SchemeRec :=
  { id := 7
    teacher_id := 3
    title := "Scheme"
    subject := none
    total_marks := 10
    model_answer_file_id := 5
    extracted_text := some "model text"
    keywords := ["alpha"]
    status := "ready"
    error_message := none
    created_at := 40
    updated_at := 45 }

/-- A database with `sampleSheet` and `readyScheme` and no results. -/
def readyDB : DB :=
  { sheets := [sampleSheet], schemes := [readyScheme], results := [], now := 100,
    nextId := 200 }

/-- Step outcomes whose extraction step raises. -/
def failingOutcomes : EvalStepOutcomes :=
  { extract := .error "OCR process failed: boom"
    persistText := .ok ()
    score := .error "unused"
    persistResult := .ok () }

/-- C7 witness: a concrete run whose extraction fails leaves the sample
sheet failed, with an error message and a processed-at stamp. -/
theorem evaluation_failure_terminal_witness :
    ((process_evaluation readyDB 1 failingOutcomes).1.sheets.getD 0 sampleSheet).status =
      "failed" ∧
    ((process_evaluation readyDB 1 failingOutcomes).1.sheets.getD 0
      sampleSheet).error_message ≠ none ∧
    ((process_evaluation readyDB 1 failingOutcomes).1.sheets.getD 0
      sampleSheet).processed_at ≠ none := by
  have h := evaluation_failure_terminal readyDB 1 failingOutcomes sampleSheet rfl
    readyScheme rfl rfl (Or.inl rfl)
  exact h.1 _ (by decide) (by decide)

/-- A freshly created scheme still in `processing`, as `create_scheme`
builds it. -/
def prepScheme : SchemeRec :=
  { id := 7
    teacher_id := 3
    title := "Scheme"
    subject := none
    total_marks := 10
    model_answer_file_id := 5
    extracted_text := none
    keywords := []
    status := "processing"
    error_message := none
    created_at := 40
    updated_at := 40 }

/-- A database holding only the fresh `prepScheme`. -/
def prepDB : DB :=
  { sheets := [], schemes := [prepScheme], results := [], now := 90, nextId := 500 }

/-- C5: the claim as stated is false. When the model answer's extracted
text yields no keywords (spaCy on an empty text returns `[]`, and the
empty string is a possible extraction result), the success transition
still sets `status = ready`, producing a ready scheme with
`keywords = []`, which violates the claimed equivalence. -/
theorem scheme_ready_invariant_counterexample :
    ((process_model_answer prepDB 7 ⟨.ok "", .ok []⟩).1.schemes.getD 0
      prepScheme).status = "ready" ∧
    ((process_model_answer prepDB 7 ⟨.ok "", .ok []⟩).1.schemes.getD 0
      prepScheme).keywords = [] ∧
    ¬schemeInv ((process_model_answer prepDB 7 ⟨.ok "", .ok []⟩).1.schemes.getD 0
      prepScheme) := by
  refine ⟨rfl, rfl, ?_⟩
  intro hinv
  exact (hinv.mp rfl).2 rfl

theorem update_scheme_failure_inv (db : DB) (scheme_id : Nat) (msg : String)
    (hold : ∀ s ∈ db.schemes, s.id = scheme_id → (schemeInv s ∧ s.status ≠ "ready")) :
    ∀ s ∈ (update_scheme_failure db scheme_id msg).schemes, s.id = scheme_id →
      schemeInv s := by
  intro s hs hid
  simp only [update_scheme_failure, List.mem_map] at hs
  obtain ⟨s0, hs0, rfl⟩ := hs
  by_cases h : s0.id = scheme_id
  · obtain ⟨hinv, hnr⟩ := hold s0 hs0 h
    have hnp : ¬(s0.extracted_text ≠ none ∧ s0.keywords ≠ []) :=
      fun hp => hnr (hinv.mpr hp)
    rw [if_pos h]
    exact ⟨fun habs => by simp at habs, fun hp => absurd hp hnp⟩
  · rw [if_neg h] at hid
    exact absurd hid h

/-- C5 (amended): creation yields a scheme satisfying the equivalence,
and one run of the preparation job preserves it on the target scheme
provided the job is run on a scheme that satisfies it and is not already
`ready` (as a freshly created one is), and keyword extraction yields a
non-empty list on success. Without the non-emptiness assumption the
success transition can make a `ready` scheme with empty keywords. -/
theorem scheme_prep_invariant (db : DB) (scheme_id : Nat) (o : PrepStepOutcomes)
    (hkw : ∀ kws, o.keywords = .ok kws → kws ≠ [])
    (hold : ∀ s ∈ db.schemes, s.id = scheme_id → (schemeInv s ∧ s.status ≠ "ready")) :
    (∀ s ∈ (process_model_answer db scheme_id o).1.schemes, s.id = scheme_id →
      schemeInv s) ∧
    (∀ teacher_id title subject total_marks file_id,
      schemeInv (create_scheme_doc db teacher_id title subject total_marks file_id)) := by
  constructor
  · simp only [process_model_answer]
    cases hfind : scheme_find_by_id db scheme_id with
    | none => exact update_scheme_failure_inv db scheme_id _ hold
    | some sc =>
      cases hext : o.extract with
      | error e => exact update_scheme_failure_inv db scheme_id _ hold
      | ok text =>
        cases hkws : o.keywords with
        | error e => exact update_scheme_failure_inv db scheme_id _ hold
        | ok kws =>
          intro s hs hid
          simp only [update_scheme_success, List.mem_map] at hs
          obtain ⟨s0, hs0, rfl⟩ := hs
          by_cases h : s0.id = scheme_id
          · rw [if_pos h]
            exact ⟨fun _ => ⟨by simp, hkw kws hkws⟩, fun _ => rfl⟩
          · rw [if_neg h] at hid
            exact absurd hid h
  · intro t ti su m f
    simp [schemeInv, create_scheme_doc]

/-- C5 witness: on the fresh `prepScheme` with non-empty keyword output
`["alpha"]`, the preparation success run leaves the scheme ready and the
equivalence holding; a freshly created scheme also satisfies it. -/
theorem scheme_prep_invariant_witness :
    schemeInv ((process_model_answer prepDB 7 ⟨.ok "model text", .ok ["alpha"]⟩).1.schemes.getD 0
      prepScheme) ∧
    schemeInv (create_scheme_doc prepDB 3 "Scheme" none 10 5) := by
  have h := scheme_prep_invariant prepDB 7 ⟨.ok "model text", .ok ["alpha"]⟩
    (fun kws hk => by
      injection hk with hk2
      rw [← hk2]
      decide)
    (fun s hs hid => by
      have : s = prepScheme := by
        simpa [prepDB] using hs
      subst this
      exact ⟨⟨fun habs => absurd habs (by decide), fun hp => absurd hp.2 (by decide)⟩,
        by decide⟩)
  refine ⟨h.1 _ (by decide) (by decide), h.2 3 "Scheme" none 10 5⟩

/-- An already-evaluated answer sheet. -/
def evaluatedSheet : SheetRec :=
  { id := 1
    evaluation_scheme_id := 7
    teacher_id := 3
    student_name := some "Asha"
    student_roll_number := none
    answer_file_id := 11
    extracted_text := some "old text"
    status := "completed"
    uploaded_at := 50
    processed_at := some 60
    error_message := none }

/-- The Result already persisted for `evaluatedSheet`. -/
def priorResult : ResultRec :=
  { id := 100
    answer_sheet_id := 1
    evaluation_scheme_id := 7
    total_score := 7
    max_score := 10
    percentage := 70
    semantic_similarity_score := 7/10
    keyword_match_score := 1/2
    detailed_feedback := "fb"
    evaluated_at := 60 }

/-- A database in which sheet 1 already has a persisted Result. -/
def dupDB : DB :=
  { sheets := [evaluatedSheet], schemes := [readyScheme], results := [priorResult],
    now := 100, nextId := 101 }

/-- Step outcomes in which every step succeeds. -/
def okOutcomes : EvalStepOutcomes :=
  { extract := .ok "new text"
    persistText := .ok ()
    score := .ok ({ total_score := 8
                    max_score := 10
                    percentage := 80
                    semantic_similarity_score := 4/5
                    keyword_match_score := 1/2 }, "feedback")
    persistResult := .ok () }

/-- C1: the claim as stated is false. `process_evaluation` performs no
up-front existing-Result check: run again on a sheet that already has a
Result (with every step outcome succeeding) it is not a no-op success
and does not leave the sheet's record unchanged — it re-extracts and
overwrites `extracted_text`, the insert is rejected by the unique index
on `evaluation_results.answer_sheet_id`, and the job takes its failure
path: the run raises, and the previously `completed` sheet ends
`failed`. (Exactly one Result does remain, thanks to the index, not to
any check in the job.) -/
theorem evaluation_rerun_counterexample :
    dupDB.results.countP (fun r => r.answer_sheet_id == 1) = 1 ∧
    ((process_evaluation dupDB 1 okOutcomes).1.results.countP
      (fun r => r.answer_sheet_id == 1)) = 1 ∧
    okB (process_evaluation dupDB 1 okOutcomes).2 = false ∧
    evaluatedSheet.status = "completed" ∧
    ((process_evaluation dupDB 1 okOutcomes).1.sheets.getD 0
      evaluatedSheet).status = "failed" ∧
    evaluatedSheet.extracted_text = some "old text" ∧
    ((process_evaluation dupDB 1 okOutcomes).1.sheets.getD 0
      evaluatedSheet).extracted_text = some "new text" := by
  exact ⟨rfl, rfl, rfl, rfl, rfl, rfl, rfl⟩

/-- C1 (amended): the duplicate-scoring guard lives in the HTTP trigger
route and in the record store's unique index, not in the job. When a
Result already exists for the sheet, `trigger_evaluation` answers
`alreadyEvaluated` (an HTTP 400 error response, not a no-op success) and
does not dispatch the job; `process_evaluation` itself checks nothing
and, if run directly with its steps succeeding, has its insert rejected
by the unique index on `evaluation_results.answer_sheet_id`: the Result
collection is unchanged (still exactly one Result for the sheet), the
job re-raises, and the sheet ends `failed` — its record rewritten, not
left unchanged. -/
theorem evaluation_idempotency_guard (db : DB) (user_id sheet_id : Nat)
    (sheet : SheetRec) (hsheet : find_by_id db sheet_id = some sheet)
    (howner : sheet.teacher_id = user_id)
    (r : ResultRec) (hres : find_by_answer_sheet db sheet_id = some r) :
    trigger_evaluation db user_id sheet_id = .alreadyEvaluated ∧
    trigger_evaluation db user_id sheet_id ≠ .accepted ∧
    (∀ o : EvalStepOutcomes, ∀ scheme : SchemeRec,
      scheme_find_by_id db sheet.evaluation_scheme_id = some scheme →
      scheme.status = "ready" →
      okB o.extract = true → okB o.persistText = true → okB o.score = true →
      okB o.persistResult = true →
      (process_evaluation db sheet_id o).1.results = db.results ∧
      okB (process_evaluation db sheet_id o).2 = false ∧
      (∀ s ∈ (process_evaluation db sheet_id o).1.sheets, s.id = sheet_id →
        s.status = "failed")) := by
  have h1 : trigger_evaluation db user_id sheet_id = .alreadyEvaluated := by
    simp only [trigger_evaluation, hsheet, hres]
    rw [if_neg (by simp [howner])]
  have hres2 : db.results.find? (fun r2 => r2.answer_sheet_id == sheet_id) = some r :=
    hres
  have hmem := List.mem_of_find?_eq_some hres2
  have hpred := List.find?_some hres2
  have hany : db.results.any (fun r2 => r2.answer_sheet_id == sheet_id) = true := by
    rw [List.any_eq_true]
    exact ⟨r, hmem, hpred⟩
  refine ⟨h1, by rw [h1]; decide, ?_⟩
  intro o scheme hscheme hready hx hpt hsc hpr
  have hnready : ¬(scheme.status ≠ "ready") := by simp [hready]
  simp only [process_evaluation, hsheet, hscheme, if_neg hnready]
  cases hext : o.extract with
  | error e => rw [hext] at hx; simp [okB] at hx
  | ok text =>
    cases hptc : o.persistText with
    | error e => rw [hptc] at hpt; simp [okB] at hpt
    | ok u =>
      cases hscc : o.score with
      | error e => rw [hscc] at hsc; simp [okB] at hsc
      | ok pair =>
        obtain ⟨scores, feedback⟩ := pair
        cases hprc : o.persistResult with
        | error e => rw [hprc] at hpr; simp [okB] at hpr
        | ok u2 =>
          have hdup : ((update_extracted_text
              (update_status db sheet_id "processing") sheet_id text).results.any
                (fun r2 => r2.answer_sheet_id == sheet_id)) = true := by
            simpa [update_extracted_text, update_status] using hany
          simp only [create_result, if_pos hdup]
          refine ⟨by simp [set_error, update_extracted_text, update_status], rfl, ?_⟩
          intro s hs hid
          exact (set_error_mem _ sheet_id _ s hs hid).1

/-- C1 witness: on `dupDB` (sheet 1 already has a Result, owner 3) the
route rejects with `alreadyEvaluated`; run directly anyway, the job
leaves the Result collection unchanged, raises, and fails the sheet. -/
theorem evaluation_idempotency_guard_witness :
    trigger_evaluation dupDB 3 1 = .alreadyEvaluated ∧
    (process_evaluation dupDB 1 okOutcomes).1.results = dupDB.results ∧
    ((process_evaluation dupDB 1 okOutcomes).1.sheets.getD 0
      evaluatedSheet).status = "failed" := by
  have h := evaluation_idempotency_guard dupDB 3 1 evaluatedSheet rfl rfl
    priorResult rfl
  have h2 := h.2.2 okOutcomes readyScheme rfl rfl rfl rfl rfl rfl
  exact ⟨h.1, h2.1, h2.2.2 _ (by decide) (by decide)⟩

/-- The slicing loop `for i in range(0, len(ids), batch_size)` of
`process_bulk_evaluation` with the source's fixed `batch_size = 5`:
consecutive windows of five ids, the last window possibly shorter. -/
def windows5 : List Nat → List (List Nat)
  | [] => []
  | [x1] => [[x1]]
  | [x1, x2] => [[x1, x2]]
  | [x1, x2, x3] => [[x1, x2, x3]]
  | [x1, x2, x3, x4] => [[x1, x2, x3, x4]]
  | x1 :: x2 :: x3 :: x4 :: x5 :: rest => [x1, x2, x3, x4, x5] :: windows5 rest

/-- What `result.get()` observes of one window: scanning the window's
members in order, the first member whose single-item job ended in
terminal failure yields that failure's message (Celery's `get`
propagates it); `none` when every member succeeded. `outcome id` is the
terminal outcome of `process_evaluation` for sheet `id` after its own
retries. -/
def window_failure (outcome : Nat → Except String Unit) : List Nat → Option String
  | [] => none
  | id :: rest =>
    match outcome id with
    | .error e => some e
    | .ok _ => window_failure outcome rest

/-- The window loop of `process_bulk_evaluation`: dispatch a window, wait
on `result.get()`; a propagated member failure raises out of the loop, so
the remaining windows are never dispatched. Returns the windows actually
dispatched and the propagated failure, if any. -/
def run_windows (outcome : Nat → Except String Unit) :
    List (List Nat) → List (List Nat) × Option String
  | [] => ([], none)
  | w :: rest =>
    match window_failure outcome w with
    | some e => ([w], some e)
    | none =>
      let p := run_windows outcome rest
      (w :: p.1, p.2)

/-- The dictionary `process_bulk_evaluation` returns: `total` always,
`message` on success, `error` when the try-block raised. -/
structure BulkSummary where
  total : Nat
  message : Option String
  error : Option String
  deriving Repr, DecidableEq

/-- The Celery task `process_bulk_evaluation`
(`services/background_tasks.py`): slice the ids into windows of five,
run them strictly in sequence, and catch any raised exception into an
error summary instead of propagating it. Also returns the windows that
were dispatched. -/
def process_bulk_evaluation (answer_sheet_ids : List Nat)
    (outcome : Nat → Except String Unit) : BulkSummary × List (List Nat) :=
  let p := run_windows outcome (windows5 answer_sheet_ids)
  match p.2 with
  | none =>
    ({ total := answer_sheet_ids.length
       message := some "Bulk evaluation completed"
       error := none }, p.1)
  | some e =>
    ({ total := answer_sheet_ids.length
       message := none
       error := some ("Bulk evaluation failed: " ++ e) }, p.1)

/-- Twelve sheet ids. -/
def ids12 : List Nat := [1, 2, 3, 4, 5, 6, 7, 8, 9, 10, 11, 12]

/-- Terminal outcomes where only sheet 1 fails permanently. -/
def failFirst : Nat → Except String Unit :=
  fun id => if id = 1 then .error "boom" else .ok ()

/-- C2: the windowing part of the claim holds (12 ids slice into windows
of 5, 5, 2, run in sequence), but the failure part is false: a permanent
failure of one member of window 1 is propagated by the window's
`result.get()`, the loop is aborted, and windows 2 and 3 are never
dispatched — the task returns an error summary instead. -/
theorem bulk_window_abort_counterexample :
    windows5 ids12 = [[1, 2, 3, 4, 5], [6, 7, 8, 9, 10], [11, 12]] ∧
    (process_bulk_evaluation ids12 failFirst).2 = [[1, 2, 3, 4, 5]] ∧
    (process_bulk_evaluation ids12 failFirst).2.length = 1 ∧
    (process_bulk_evaluation ids12 failFirst).1.error =
      some "Bulk evaluation failed: boom" := by
  exact ⟨rfl, rfl, rfl, rfl⟩

theorem window_failure_none (outcome : Nat → Except String Unit) (w : List Nat)
    (h : ∀ id ∈ w, outcome id = .ok ()) : window_failure outcome w = none := by
  induction w with
  | nil => rfl
  | cons a rest ih =>
    simp only [window_failure, h a (by simp)]
    exact ih (fun id hid => h id (by simp [hid]))

theorem run_windows_all_ok (outcome : Nat → Except String Unit)
    (ws : List (List Nat)) (h : ∀ w ∈ ws, window_failure outcome w = none) :
    run_windows outcome ws = (ws, none) := by
  induction ws with
  | nil => rfl
  | cons w rest ih =>
    simp only [run_windows, h w (by simp)]
    rw [ih (fun w2 hw2 => h w2 (by simp [hw2]))]

theorem run_windows_abort (outcome : Nat → Except String Unit) (w : List Nat)
    (e : String) (hfail : window_failure outcome w = some e) :
    ∀ pre post, (∀ w2 ∈ pre, window_failure outcome w2 = none) →
      run_windows outcome (pre ++ w :: post) = (pre ++ [w], some e) := by
  intro pre
  induction pre with
  | nil => intro post _; simp [run_windows, hfail]
  | cons p pre' ih =>
    intro post hok
    simp only [List.cons_append, run_windows, hok p (by simp), List.append_eq]
    rw [ih post (fun w2 hw2 => hok w2 (by simp [hw2]))]

theorem windows5_flatten (l : List Nat) : (windows5 l).flatten = l := by
  induction l using windows5.induct <;> simp [windows5, *]

theorem windows5_mem_props (l : List Nat) :
    ∀ w ∈ windows5 l, w ≠ [] ∧ w.length ≤ 5 := by
  induction l using windows5.induct <;> intro w hw <;>
    simp only [windows5, List.mem_cons, List.mem_singleton,
      List.not_mem_nil, or_false] at hw
  case case2 => subst hw; simp
  case case3 => subst hw; simp
  case case4 => subst hw; simp
  case case5 => subst hw; simp
  case case6 ih =>
    rcases hw with rfl | hw
    · simp
    · exact ih w hw

theorem windows5_dropLast (l : List Nat) :
    ∀ w ∈ (windows5 l).dropLast, w.length = 5 := by
  induction l using windows5.induct <;> intro w hw <;>
    simp only [windows5, List.dropLast_single, List.dropLast_nil,
      List.not_mem_nil] at hw
  case case6 x1 x2 x3 x4 x5 rest ih =>
    cases hrest : windows5 rest with
    | nil => rw [hrest] at hw; simp at hw
    | cons y t =>
      rw [hrest] at hw
      simp only [List.dropLast_cons₂, List.mem_cons] at hw
      rcases hw with rfl | hw
      · simp
      · apply ih
        rw [hrest]
        simpa using hw

/-- C2 (amended): the id list is sliced into consecutive windows of five
(whose concatenation is the input, every window non-empty and of size at
most 5, all but the last of size exactly 5), and windows run strictly in
sequence; when every member succeeds, every window runs and the task
reports completion. But a member's permanent failure aborts the loop at
its window: execution stops with the windows up to and including the
failing one, and the later windows are never dispatched. -/
theorem bulk_windows_props (ids : List Nat) (outcome : Nat → Except String Unit) :
    (windows5 ids).flatten = ids ∧
    (∀ w ∈ windows5 ids, w ≠ [] ∧ w.length ≤ 5) ∧
    (∀ w ∈ (windows5 ids).dropLast, w.length = 5) ∧
    ((∀ id ∈ ids, outcome id = .ok ()) →
      (process_bulk_evaluation ids outcome).2 = windows5 ids ∧
      (process_bulk_evaluation ids outcome).1.message =
        some "Bulk evaluation completed") ∧
    (∀ pre w post, windows5 ids = pre ++ w :: post →
      (∀ w2 ∈ pre, window_failure outcome w2 = none) →
      window_failure outcome w ≠ none →
      (process_bulk_evaluation ids outcome).2 = pre ++ [w]) := by
  refine ⟨windows5_flatten ids, windows5_mem_props ids, windows5_dropLast ids, ?_, ?_⟩
  · intro hall
    have hw : ∀ w ∈ windows5 ids, window_failure outcome w = none := by
      intro w hwmem
      apply window_failure_none
      intro id hid
      apply hall
      rw [← windows5_flatten ids]
      exact List.mem_flatten.mpr ⟨w, hwmem, hid⟩
    have hrun := run_windows_all_ok outcome (windows5 ids) hw
    simp [process_bulk_evaluation, hrun]
  · intro pre w post heq hpre hfail
    obtain ⟨e, he⟩ := Option.ne_none_iff_exists'.mp hfail
    have hrun := run_windows_abort outcome w e he pre post hpre
    simp [process_bulk_evaluation, heq, hrun]

/-- C2 witness: on the twelve ids, all-success runs all three windows
with a completion message, and the failure of member 1 stops execution
after window 1. -/
theorem bulk_windows_props_witness :
    (process_bulk_evaluation ids12 failFirst).2 = [] ++ [[1, 2, 3, 4, 5]] ∧
    (process_bulk_evaluation ids12 (fun _ => .ok ())).2 = windows5 ids12 ∧
    (process_bulk_evaluation ids12 (fun _ => .ok ())).1.message =
      some "Bulk evaluation completed" := by
  have h := bulk_windows_props ids12 failFirst
  have h2 := bulk_windows_props ids12 (fun _ => .ok ())
  have hab := h.2.2.2.2 [] [1, 2, 3, 4, 5] [[6, 7, 8, 9, 10], [11, 12]] rfl
    (by simp) (by decide)
  have hall := h2.2.2.2.1 (fun id _ => rfl)
  exact ⟨hab, hall.1, hall.2⟩

/-- C10: `process_bulk_evaluation` never raises: for every id list and
every pattern of member outcomes it returns a summary dictionary whose
`total` is the length of the input list, with a completion message on
success and an error message (instead of a propagated exception) on any
internal failure — exactly one of the two. -/
theorem bulk_total_no_raise (ids : List Nat) (outcome : Nat → Except String Unit) :
    (process_bulk_evaluation ids outcome).1.total = ids.length ∧
    ((process_bulk_evaluation ids outcome).1.message.isSome ∨
      (process_bulk_evaluation ids outcome).1.error.isSome) ∧
    ¬((process_bulk_evaluation ids outcome).1.message.isSome ∧
      (process_bulk_evaluation ids outcome).1.error.isSome) := by
  simp only [process_bulk_evaluation]
  cases hfo : (run_windows outcome (windows5 ids)).2 with
  | none => simp
  | some e => simp
